import Mathlib

/-!
Verification of the call-session state machine and turn orchestration /
evaluation engine of the FirstRound.AI phone-screening service
(src/agent/bot.py), as a shallow embedding.

Modelling conventions:
* Python strings are Lean `String`s; Python slicing, `strip` and `split`
  are re-implemented structurally (`pyTruncate`, `pyStrip`, `pySplit`) so
  that every definition reduces in the kernel.
* The module-level dict `interview_contexts` is the `Registry`, a total
  function from call identifiers to optional session contexts; a Python
  dict entry that is absent is `none`.
* External capabilities (the OpenAI chat-completions backend, Twilio call
  creation) are passed in as `Except String String` values: `Except.error`
  models any exception the call raises, `Except.ok` its returned text.
* `json.loads` of the evaluation object is abstracted as a parameter
  `parse : String -> Option Evaluation`; `none` covers any exception
  raised while parsing.
* In-place mutation of dict values matters: `process_response` appends the
  candidate turn to the very dict object stored in the registry, so that
  append survives even on the error path where the explicit store is
  skipped.  The embedding reproduces the resulting final states.
-/

/-- One transcript turn, a dict with keys role and content
(bot.py:348, 390).  The code uses role "user" for the candidate and
role "assistant" for the interviewer. -/
structure Message where
  role : String
  content : String
deriving DecidableEq

/-- The parsed evaluation object requested from the model
(bot.py:114-126) and returned verbatim by `evaluate_interview`. -/
structure Evaluation where
  technical_fit : Int
  experience_relevance : Int
  communication : Int
  problem_solving : Int
  culture_fit : Int
  overall_score : Int
  decision : String
  summary : String
  strengths : List String
  areas_of_concern : List String
deriving DecidableEq

/-- One session context stored in `interview_contexts`.  The keys
conversation and evaluation may be absent from the Python dict, hence
`Option`. -/
structure Context where
  jd : String
  resume : String
  conversation : Option (List Message)
  evaluation : Option Evaluation
deriving DecidableEq

/-- The JSON record written by `save_conversation_log` (bot.py:67-76).
The timestamp field holds the `datetime.now().isoformat()` value, which is
produced by the standard library and passed in here as a parameter. -/
structure LogRecord where
  call_sid : String
  timestamp : String
  status : String
  job_description : String
  resume_summary : String
  conversation : List Message
  exchange_count : Nat
  evaluation : Option Evaluation
deriving DecidableEq

/-- The default dict used when the call sid is not in the registry
(bot.py:341): jd and resume empty, conversation present and empty. -/
def defaultContext : Context :=
  { jd := "", resume := "", conversation := some [], evaluation := none }

/-- The fixed neutral fallback evaluation returned on any failure inside
`evaluate_interview` (bot.py:151-162). -/
def fallbackEvaluation : Evaluation :=
  { technical_fit := 5
    experience_relevance := 5
    communication := 5
    problem_solving := 5
    culture_fit := 5
    overall_score := 5
    decision := "PENDING"
    summary := "Evaluation could not be completed automatically."
    strengths := []
    areas_of_concern := ["Automatic evaluation failed"] }

/-- ASCII whitespace stripped by Python str.strip (the inputs at hand are
ASCII, so the unicode cases are immaterial). -/
def isPyWhitespace (c : Char) : Bool :=
  c == ' ' || c == '\t' || c == '\n' || c == '\r' || c == '\x0B' || c == '\x0C'

/-- Python str.strip(): remove leading and trailing whitespace. -/
def pyStrip (s : String) : String :=
  String.mk (((s.data.dropWhile isPyWhitespace).reverse.dropWhile isPyWhitespace).reverse)

/-- Python slicing s[:n]: the first n characters. -/
def pyTruncate (s : String) (n : Nat) : String :=
  String.mk (s.data.take n)

/-- Worker for `pySplit`.  Scans left to right; at each position where sep
is a prefix of the rest, emits the accumulated part and continues after
sep.  Fuel is the remaining scan length; it is always sufficient because
every step consumes at least one character. -/
def splitAux (sep : List Char) : Nat → List Char → List Char → List (List Char)
  | 0, acc, rest => [acc.reverse ++ rest]
  | fuel + 1, acc, rest =>
    if (!sep.isEmpty) && sep.isPrefixOf rest then
      acc.reverse :: splitAux sep fuel [] (rest.drop sep.length)
    else
      match rest with
      | [] => [acc.reverse]
      | ch :: cs => splitAux sep fuel (ch :: acc) cs

/-- Python str.split(sep) for a nonempty separator: all parts between
non-overlapping occurrences of sep, scanning left to right. -/
def pySplit (s sep : String) : List String :=
  (splitAux sep.data (s.data.length + 1) [] s.data).map String.mk

/-- Python substring containment, sep in s, for a nonempty sep: holds
exactly when the split has at least two parts. -/
def pyContains (s sep : String) : Bool :=
  2 ≤ (pySplit s sep).length

/-- The markdown code-fence stripping applied to the evaluation response
text (bot.py:138-143): strip, then if a json fence is present take the
part after it up to the next fence, else if any fence is present take the
part between the first two fences, else the stripped text itself.  The
Python index [1] raises IndexError when the split has fewer than two
parts (dead path, since containment was just checked); that path is
`none` and feeds the same except handler as a parse failure. -/
def stripFences (content : String) : Option String :=
  let s := pyStrip content
  if pyContains s "```json" then
    match pySplit s "```json" with
    | _ :: t :: _ => some (pyStrip ((pySplit t "```").headD ""))
    | _ => none
  else if pyContains s "```" then
    match pySplit s "```" with
    | _ :: t :: _ => some (pyStrip ((pySplit t "```").headD ""))
    | _ => none
  else
    some s

/-- Embeds `evaluate_interview` (bot.py:85-162).  The chat-completions
call is the external `evalClient`; its prompt (rendered from the job
description, resume and transcript) only feeds that opaque client, so it
does not appear here.  `parse` abstracts `json.loads` of the cleaned
response text.  Any exception inside the try block — backend failure,
IndexError while fence-stripping, parse failure — yields the fixed
fallback dict; a successfully parsed evaluation is returned verbatim,
including its self-reported decision field. -/
def evaluate_interview (parse : String → Option Evaluation)
    (evalClient : Except String String) : Evaluation :=
  match evalClient with
  | Except.error _ => fallbackEvaluation
  | Except.ok content =>
    match stripFences content with
    | none => fallbackEvaluation
    | some t =>
      match parse t with
      | none => fallbackEvaluation
      | some ev => ev

/-- Follows the SPEC words (section 4.3), not the source: ACCEPT exactly
when the arithmetic mean of the five sub-scores is at least 6
(equivalently, their sum is at least 30) and the minimum sub-score is at
least 4, else REJECT.  Declared only to compare the deterministic rule the
spec demands against the decision the code actually returns. -/
def specDecisionRule (ev : Evaluation) : String :=
  if 30 ≤ ev.technical_fit + ev.experience_relevance + ev.communication
          + ev.problem_solving + ev.culture_fit
      ∧ 4 ≤ min ev.technical_fit (min ev.experience_relevance
              (min ev.communication (min ev.problem_solving ev.culture_fit)))
  then "ACCEPT" else "REJECT"

/-- Embeds the status field of the PATCH payload built by
`update_application_status` (bot.py:172): "accepted" when the evaluation
dict reports decision ACCEPT, otherwise "rejected".  The HTTP call itself
is external and best-effort. -/
def update_application_status (evaluation : Evaluation) : String :=
  if evaluation.decision = "ACCEPT" then "accepted" else "rejected"

/-- Embeds `save_conversation_log` (bot.py:65-83): the JSON record written
for one call sid.  `ts` is the `datetime.now().isoformat()` timestamp. -/
def save_conversation_log (call_sid ts : String) (context : Context)
    (status : String) : LogRecord :=
  { call_sid := call_sid
    timestamp := ts
    status := status
    job_description := pyTruncate context.jd 500
    resume_summary := pyTruncate context.resume 500
    conversation := context.conversation.getD []
    exchange_count := (context.conversation.getD []).length / 2
    evaluation := context.evaluation }

/-- The module-level dict `interview_contexts` (bot.py:28): a mapping from
call identifier to session context; an absent key is `none`. -/
abbrev Registry : Type := String → Option Context

/-- Dict assignment d[k] = v. -/
def regSet (r : Registry) (k : String) (v : Context) : Registry :=
  fun x => if x = k then some v else r x

/-- Dict deletion del d[k] (or the removal half of d.pop(k)). -/
def regErase (r : Registry) (k : String) : Registry :=
  fun x => if x = k then none else r x

/-- The fixed apology substituted for the interviewer utterance when the
generation call raises (bot.py:402). -/
def apologyText : String :=
  "I apologize, I\x27m having some technical difficulties. Could you please repeat that?"

/-- Embeds `process_response` (bot.py:333-443), the turn orchestrator.
Inputs: the timestamp for the log write, the call sid from the URL, the
SpeechResult form field, the outcome of the generation call, and the
registry.  Output: the registry after the turn, the utterance spoken next
(played or said in the returned TwiML), the branch flag that plays the
closing message and hangs up (bot.py:411), and the log record written for
this turn, if any.

The code looks the session up with a default (bot.py:341), ensures the
conversation key (344-345) and appends the candidate turn (348); because
dict values are mutated in place, those writes persist in the registry
whenever the session exists, even though the explicit store (393) and the
log write (396) sit inside the try block and are skipped when the
generation call raises.  On success the interviewer turn is appended, the
context stored and the in-progress log written; on failure the apology is
substituted and nothing further is persisted. -/
def process_response (ts call_sid speech : String)
    (gen : Except String String) (r : Registry) :
    Registry × String × Bool × Option LogRecord :=
  let ctx := (r call_sid).getD defaultContext
  let conv1 := ctx.conversation.getD [] ++ [Message.mk "user" speech]
  match gen with
  | Except.ok ai =>
    let conv2 := conv1 ++ [Message.mk "assistant" ai]
    let ctx2 : Context := { ctx with conversation := some conv2 }
    (regSet r call_sid ctx2, ai, decide (10 ≤ conv2.length),
      some (save_conversation_log call_sid ts ctx2 "in_progress"))
  | Except.error _ =>
    let ctx2 : Context := { ctx with conversation := some conv1 }
    ((if (r call_sid).isSome then regSet r call_sid ctx2 else r),
      apologyText, decide (10 ≤ conv1.length), none)

/-- The conversation list held in the local context variable of
`process_response` after the turn: the prior transcript plus the candidate
turn, plus the interviewer turn when the generation call succeeded.  This
is the list whose length the hang-up branch tests (bot.py:411). -/
def convAfter (call_sid speech : String) (gen : Except String String)
    (r : Registry) : List Message :=
  let ctx := (r call_sid).getD defaultContext
  let conv1 := ctx.conversation.getD [] ++ [Message.mk "user" speech]
  match gen with
  | Except.ok ai => conv1 ++ [Message.mk "assistant" ai]
  | Except.error _ => conv1

/-- Embeds the re-keying statement
interview_contexts[call.sid] = interview_contexts.pop(temp_key)
(bot.py:266).  dict.pop raises KeyError when the old key is absent
(leaving the dict unchanged); otherwise the entry is removed and the
assignment overwrites any existing entry for the new key without any
collision check. -/
def rekey (oldKey newKey : String) (r : Registry) : Except String Registry :=
  match r oldKey with
  | none => Except.error "KeyError"
  | some v => Except.ok (regSet (regErase r oldKey) newKey v)

/-- Embeds `start_phone_interview` (bot.py:239-273).  `callResult` is the
outcome of the external client.calls.create request: `Except.ok` carries
the provider call sid, `Except.error` any exception raised.  The
provisional entry keyed pending_ plus the phone number is stored before
the request; on any exception inside the try block the handler re-raises
an HTTPException, with the registry left as it stands at that point. -/
def start_phone_interview (jd resume phone : String)
    (callResult : Except String String) (r : Registry) :
    Registry × Except String String :=
  let temp_key := "pending_" ++ phone
  let r1 := regSet r temp_key
    { jd := jd, resume := resume, conversation := none, evaluation := none }
  match callResult with
  | Except.error e => (r1, Except.error ("Failed to initiate call: " ++ e))
  | Except.ok sid =>
    match rekey temp_key sid r1 with
    | Except.error err => (r1, Except.error ("Failed to initiate call: " ++ err))
    | Except.ok r2 => (r2, Except.ok sid)

/-- Embeds `twilio_status_callback` (bot.py:445-476).  On status completed
with the session present: the evaluation is computed and attached exactly
when the conversation has at least 2 messages, the final log record is
written, and the session is deleted.  On the other terminal statuses with
the session present: the log is written and the session deleted without
evaluation.  In every other case nothing changes.  The handler always
returns the dict with status ok, modelled by the final "ok" component.
The best-effort PATCH to the frontend is external (its payload status is
`update_application_status`). -/
def twilio_status_callback (ts call_sid call_status : String)
    (parse : String → Option Evaluation) (evalClient : Except String String)
    (r : Registry) : Registry × Option LogRecord × String :=
  if call_status = "completed" then
    match r call_sid with
    | some ctx =>
      let ctx2 := if 2 ≤ (ctx.conversation.getD []).length then
          { ctx with evaluation := some (evaluate_interview parse evalClient) }
        else ctx
      (regErase r call_sid,
        some (save_conversation_log call_sid ts ctx2 call_status), "ok")
    | none => (r, none, "ok")
  else if call_status ∈ ["failed", "busy", "no-answer"] then
    match r call_sid with
    | some ctx =>
      (regErase r call_sid,
        some (save_conversation_log call_sid ts ctx call_status), "ok")
    | none => (r, none, "ok")
  else
    (r, none, "ok")

/-- A sequence of `process_response` turns on one call sid, each with a
successful generation call: the n-th list entry is the candidate utterance
and the generated reply of the n-th turn. -/
def runTurns (ts call_sid : String) :
    List (String × String) → Registry → Registry
  | [], r => r
  | (u, a) :: rest, r =>
    runTurns ts call_sid rest (process_response ts call_sid u (Except.ok a) r).1

/-- The transcript produced by a list of successful turns: candidate then
interviewer message per turn, in order. -/
def turnsToMsgs : List (String × String) → List Message
  | [] => []
  | (u, a) :: rest =>
    Message.mk "user" u :: Message.mk "assistant" a :: turnsToMsgs rest

/-- The role sequence of a strictly alternating transcript of n full
exchanges that starts with a candidate turn. -/
def rolePattern : Nat → List String
  | 0 => []
  | n + 1 => "user" :: "assistant" :: rolePattern n

/-- A generator output with uniformly minimal sub-scores that nonetheless
self-reports decision ACCEPT; used to separate the returned decision from
the deterministic rule. -/
def badEval : Evaluation :=
  { technical_fit := 1
    experience_relevance := 1
    communication := 1
    problem_solving := 1
    culture_fit := 1
    overall_score := 1
    decision := "ACCEPT"
    summary := "short"
    strengths := []
    areas_of_concern := [] }

/-- Claim C1: for every call session and every `process_response`
invocation, the returned shouldEnd flag — the branch that plays the
closing message and hangs up — is true exactly when the transcript length
after the turn is at least 10, independent of the content the generation
client produced (the length test never inspects the generated text). -/
theorem shouldEnd_iff_transcript_length (ts call_sid speech : String)
    (gen : Except String String) (r : Registry) :
    (process_response ts call_sid speech gen r).2.2.1 = true ↔
      10 ≤ (convAfter call_sid speech gen r).length := by
  cases gen <;> simp [process_response, convAfter]

/-- Claim C2, counterexample: the decision in the result of
`evaluate_interview` is taken verbatim from the generator self-reported
decision field, not recomputed from the sub-scores.  A parsed output with
all five sub-scores 1 but decision ACCEPT comes back with decision ACCEPT,
while the deterministic rule of the spec gives REJECT, and the downstream
application status is accepted. -/
theorem decision_taken_from_generator_counterexample :
    (evaluate_interview (fun t => if t = "payload" then some badEval else none)
        (Except.ok "payload")).decision = "ACCEPT" ∧
      specDecisionRule badEval = "REJECT" ∧
      update_application_status
        (evaluate_interview (fun t => if t = "payload" then some badEval else none)
          (Except.ok "payload")) = "accepted" := by
  refine ⟨?_, by decide, ?_⟩ <;> decide

/-- Claim C2, amended: the final decision is the generator self-reported
decision field passed through unchanged — whenever the evaluation response
parses, `evaluate_interview` returns the parsed object verbatim, and
`update_application_status` maps its decision field (accepted exactly for
ACCEPT); no deterministic recomputation from the sub-scores occurs
anywhere in the code (the rule appears only inside the prompt text). -/
theorem evaluate_interview_passes_decision_through
    (parse : String → Option Evaluation) (raw t : String) (ev : Evaluation)
    (hs : stripFences raw = some t) (hp : parse t = some ev) :
    evaluate_interview parse (Except.ok raw) = ev ∧
      update_application_status ev =
        (if ev.decision = "ACCEPT" then "accepted" else "rejected") := by
  refine ⟨?_, rfl⟩
  simp [evaluate_interview, hs, hp]

/-- Witness for the amended C2 theorem at a concrete parse function and
raw response. -/
theorem evaluate_interview_passes_decision_through_witness :
    stripFences "payload" = some "payload" ∧
      (fun t => if t = "payload" then some badEval else none) "payload" = some badEval ∧
      evaluate_interview (fun t => if t = "payload" then some badEval else none)
        (Except.ok "payload") = badEval :=
  ⟨by decide, by decide,
    (evaluate_interview_passes_decision_through
      (fun t => if t = "payload" then some badEval else none)
      "payload" "payload" badEval (by decide) (by decide)).1⟩

/-- Claim C3: `evaluate_interview` never raises, and on every failure of
the evaluation client, every IndexError during fence stripping and every
unparseable response, the result equals the fixed neutral fallback value:
all five sub-scores 5, overall score 5, decision PENDING, with the concern
noting that automatic evaluation failed. -/
theorem evaluate_interview_fallback (parse : String → Option Evaluation)
    (evalClient : Except String String)
    (h : ∀ raw t, evalClient = Except.ok raw → stripFences raw = some t →
      parse t = none) :
    evaluate_interview parse evalClient = fallbackEvaluation := by
  cases evalClient with
  | error e => rfl
  | ok raw =>
    simp only [evaluate_interview]
    cases hs : stripFences raw with
    | none => rfl
    | some t => simp [h raw t rfl hs]

/-- Witness for C3 at a concrete failing parse and concrete raw output. -/
theorem evaluate_interview_fallback_witness :
    (∀ t : String, (fun _ : String => (none : Option Evaluation)) t = none) ∧
      evaluate_interview (fun _ => none) (Except.ok "this is not json") =
        fallbackEvaluation :=
  ⟨fun _ => rfl,
    evaluate_interview_fallback (fun _ => none) (Except.ok "this is not json")
      (fun _ _ _ _ => rfl)⟩

/-- Claim C9: every persisted log record contains the job description and
resume truncated to at most 500 characters, the timestamp string the
handler computed via isoformat, the full transcript, an exchange count
equal to the integer division of the transcript length by 2, and the
evaluation or null. -/
theorem save_conversation_log_shape (call_sid ts status : String)
    (context : Context) :
    (save_conversation_log call_sid ts context status).call_sid = call_sid ∧
      (save_conversation_log call_sid ts context status).timestamp = ts ∧
      (save_conversation_log call_sid ts context status).status = status ∧
      (save_conversation_log call_sid ts context status).job_description.length ≤ 500 ∧
      (save_conversation_log call_sid ts context status).resume_summary.length ≤ 500 ∧
      (save_conversation_log call_sid ts context status).conversation =
        context.conversation.getD [] ∧
      (save_conversation_log call_sid ts context status).exchange_count =
        (context.conversation.getD []).length / 2 ∧
      (save_conversation_log call_sid ts context status).evaluation =
        context.evaluation := by
  refine ⟨rfl, rfl, rfl, ?_, ?_, rfl, rfl, rfl⟩ <;>
    exact List.length_take_le _ _

/-- Claim C10: when the telephony client call-creation request raises,
`start_phone_interview` raises an error to the caller, but the provisional
registry entry keyed pending_ plus the phone number — stored before the
request — remains in the registry: the error path never removes it. -/
theorem start_phone_interview_error_keeps_provisional
    (jd resume phone e : String) (r : Registry) :
    (start_phone_interview jd resume phone (Except.error e) r).2 =
        Except.error ("Failed to initiate call: " ++ e) ∧
      (start_phone_interview jd resume phone (Except.error e) r).1
          ("pending_" ++ phone) =
        some { jd := jd, resume := resume, conversation := none,
               evaluation := none } := by
  exact ⟨rfl, by simp [start_phone_interview, regSet]⟩

/-- A session mid-interview, used for the C4 items. -/
def ctxC4 : Context :=
  { jd := "jd", resume := "cv",
    conversation := some [Message.mk "user" "hi", Message.mk "assistant" "q1"],
    evaluation := none }

/-- A registry holding only `ctxC4` under call sid CA4. -/
def regC4 : Registry := fun k => if k = "CA4" then some ctxC4 else none

/-- Claim C4, counterexample: a `process_response` call whose generation
call fails, on an existing session with one prior exchange.  No log record
is produced for the turn, and the stored transcript ends with the
candidate turn — no interviewer turn was appended — contradicting the
claim that the turn is persisted and logged exactly as on a successful
turn. -/
theorem process_response_failure_counterexample :
    (process_response "t0" "CA4" "answer" (Except.error "boom") regC4).2.2.2 =
        none ∧
      (((process_response "t0" "CA4" "answer" (Except.error "boom") regC4).1
            "CA4").getD defaultContext).conversation.getD [] =
        [Message.mk "user" "hi", Message.mk "assistant" "q1",
         Message.mk "user" "answer"] := by
  constructor <;> decide

/-- Claim C4, amended: when the generation call fails, the turn still
completes without raising and the fixed apology is substituted as the next
utterance, but — unlike a successful turn — the interviewer turn is not
appended and no log record is written; only the candidate turn persists,
and only when the session already existed (through in-place mutation of
the stored dict), the rest of the registry being untouched. -/
theorem process_response_failure_behavior (ts call_sid speech e : String)
    (r : Registry) :
    (process_response ts call_sid speech (Except.error e) r).2.1 = apologyText ∧
      (process_response ts call_sid speech (Except.error e) r).2.2.2 = none ∧
      (process_response ts call_sid speech (Except.error e) r).1 call_sid =
        (if (r call_sid).isSome then
          some { (r call_sid).getD defaultContext with
                 conversation := some ((((r call_sid).getD defaultContext).conversation.getD [])
                   ++ [Message.mk "user" speech]) }
         else r call_sid) ∧
      (∀ k, k ≠ call_sid →
        (process_response ts call_sid speech (Except.error e) r).1 k = r k) := by
  refine ⟨rfl, rfl, ?_, ?_⟩
  · by_cases h : (r call_sid).isSome <;>
      simp [process_response, regSet, h]
  · intro k hk
    by_cases h : (r call_sid).isSome <;>
      simp [process_response, regSet, h, hk]

/-- A freshly created session with no conversation key, as stored by
`start_phone_interview`; used for the C5 items. -/
def ctxC5 : Context :=
  { jd := "jd5", resume := "cv5", conversation := none, evaluation := none }

/-- A registry holding only `ctxC5` under call sid CA5. -/
def regC5 : Registry := fun k => if k = "CA5" then some ctxC5 else none

theorem turnsToMsgs_length (l : List (String × String)) :
    (turnsToMsgs l).length = 2 * l.length := by
  induction l with
  | nil => rfl
  | cons head rest ih =>
    obtain ⟨u, a⟩ := head
    simp [turnsToMsgs, ih]
    omega

theorem turnsToMsgs_roles (l : List (String × String)) :
    (turnsToMsgs l).map Message.role = rolePattern l.length := by
  induction l with
  | nil => rfl
  | cons head rest ih =>
    obtain ⟨u, a⟩ := head
    simp [turnsToMsgs, rolePattern, ih]

theorem runTurns_conversation (ts call_sid : String)
    (turns : List (String × String)) :
    ∀ (r : Registry) (ctx : Context) (pre : List Message),
      r call_sid = some ctx → ctx.conversation.getD [] = pre →
      ∃ ctx2, (runTurns ts call_sid turns r) call_sid = some ctx2 ∧
        ctx2.jd = ctx.jd ∧ ctx2.resume = ctx.resume ∧
        ctx2.conversation.getD [] = pre ++ turnsToMsgs turns := by
  induction turns with
  | nil =>
    intro r ctx pre hc hpre
    exact ⟨ctx, by simpa [runTurns] using hc, rfl, rfl, by simp [hpre, turnsToMsgs]⟩
  | cons head rest ih =>
    obtain ⟨u, a⟩ := head
    intro r ctx pre hc hpre
    have step : (process_response ts call_sid u (Except.ok a) r).1 call_sid =
        some { ctx with
               conversation := some (pre ++ [Message.mk "user" u, Message.mk "assistant" a]) } := by
      simp [process_response, regSet, hc, hpre]
    obtain ⟨ctx2, h1, hjd, hres, h2⟩ :=
      ih _ _ (pre ++ [Message.mk "user" u, Message.mk "assistant" a]) step (by simp)
    refine ⟨ctx2, by simpa [runTurns] using h1, by simpa using hjd,
      by simpa using hres, ?_⟩
    rw [h2]
    simp [turnsToMsgs]

/-- Claim C5, counterexample: one `process_response` call with a
successful generation on a fresh session.  The stored transcript is
[candidate, interviewer] — it starts with the candidate role "user", not
with an interviewer turn, because the opening greeting and first question
produced by the voice webhook are never appended to the transcript. -/
theorem transcript_starts_with_candidate_counterexample :
    ((((process_response "t0" "CA5" "hello" (Except.ok "first reply") regC5).1
          "CA5").getD defaultContext).conversation.getD []).map Message.role =
        ["user", "assistant"] ∧
      (((((process_response "t0" "CA5" "hello" (Except.ok "first reply") regC5).1
          "CA5").getD defaultContext).conversation.getD []).map Message.role).head? ≠
        some "assistant" := by
  constructor <;> decide

/-- Claim C5, amended: for every call sid and every sequence of
`process_response` calls whose generation succeeds, starting from a
session with an empty or absent transcript, the transcript strictly
alternates candidate and interviewer turns starting with a CANDIDATE turn
(role "user"; the opening greeting is never appended, so no leading
interviewer turn exists), its length immediately before the k-th call is
2(k-1) — in particular even — and after the n-th call it equals 2n. -/
theorem transcript_alternation (ts call_sid : String)
    (turns : List (String × String)) (r : Registry) (ctx : Context)
    (hc : r call_sid = some ctx) (h0 : ctx.conversation.getD [] = [])
    (k : Nat) :
    ∃ ctx2, (runTurns ts call_sid (turns.take k) r) call_sid = some ctx2 ∧
      ctx2.conversation.getD [] = turnsToMsgs (turns.take k) ∧
      (ctx2.conversation.getD []).length = 2 * (turns.take k).length ∧
      (ctx2.conversation.getD []).map Message.role =
        rolePattern (turns.take k).length := by
  obtain ⟨ctx2, h1, _, _, h2⟩ :=
    runTurns_conversation ts call_sid (turns.take k) r ctx [] hc h0
  rw [List.nil_append] at h2
  exact ⟨ctx2, h1, h2, by rw [h2, turnsToMsgs_length],
    by rw [h2, turnsToMsgs_roles]⟩

/-- Witness for the amended C5 theorem: two successful turns on a fresh
session. -/
theorem transcript_alternation_witness :
    regC5 "CA5" = some ctxC5 ∧ ctxC5.conversation.getD [] = [] ∧
      (∃ ctx2, (runTurns "t" "CA5" ([("a1", "q2"), ("a2", "q3")].take 2) regC5)
            "CA5" = some ctx2 ∧
        ctx2.conversation.getD [] = turnsToMsgs ([("a1", "q2"), ("a2", "q3")].take 2) ∧
        (ctx2.conversation.getD []).length = 2 * (([("a1", "q2"), ("a2", "q3")].take 2).length) ∧
        (ctx2.conversation.getD []).map Message.role =
          rolePattern (([("a1", "q2"), ("a2", "q3")].take 2).length)) :=
  ⟨rfl, rfl,
    transcript_alternation "t" "CA5" [("a1", "q2"), ("a2", "q3")] regC5 ctxC5
      rfl rfl 2⟩

/-- Session data stored under a provisional key; used for the C6 items. -/
def ctxOld : Context :=
  { jd := "jdA", resume := "cvA",
    conversation := some [Message.mk "user" "x"], evaluation := none }

/-- Unrelated session data already stored under the permanent key; used
for the C6 counterexample. -/
def ctxNew : Context :=
  { jd := "jdB", resume := "cvB", conversation := none, evaluation := none }

/-- A registry with a provisional entry and a colliding permanent
entry. -/
def regC6 : Registry := fun k =>
  if k = "pending_555" then some ctxOld
  else if k = "CA6" then some ctxNew else none

/-- Claim C6, counterexample: re-keying onto a key that is already present
does not fail with any collision error — the assignment silently
overwrites the existing entry.  Here CA6 already held `ctxNew`, yet rekey
succeeds and CA6 afterwards holds the provisional data `ctxOld`. -/
theorem rekey_overwrite_counterexample :
    ∃ r2, rekey "pending_555" "CA6" regC6 = Except.ok r2 ∧
      regC6 "CA6" = some ctxNew ∧ r2 "CA6" = some ctxOld ∧
      r2 "CA6" ≠ some ctxNew :=
  ⟨_, rfl, by decide, by decide, by decide⟩

/-- Claim C6, amended: re-keying is exactly-once and preserves the data —
after a successful rekey the old key is absent, the new key holds the
prior session data unchanged and every other key is untouched; rekey fails
(KeyError from dict.pop) when the old key is absent; but when the new key
is already present there is no failure: the existing entry is silently
overwritten. -/
theorem rekey_behavior (oldKey newKey : String) (r : Registry) (v : Context)
    (hne : oldKey ≠ newKey) (hold : r oldKey = some v) :
    rekey oldKey newKey r =
        Except.ok (regSet (regErase r oldKey) newKey v) ∧
      regSet (regErase r oldKey) newKey v oldKey = none ∧
      regSet (regErase r oldKey) newKey v newKey = some v ∧
      (∀ k, k ≠ oldKey → k ≠ newKey →
        regSet (regErase r oldKey) newKey v k = r k) ∧
      rekey oldKey newKey (regErase r oldKey) = Except.error "KeyError" := by
  refine ⟨by simp [rekey, hold], ?_, by simp [regSet], ?_, ?_⟩
  · simp [regSet, regErase, hne, Ne.symm hne]
  · intro k hk1 hk2
    simp [regSet, regErase, hk1, hk2]
  · simp [rekey, regErase]

/-- Witness for the amended C6 theorem at a concrete registry. -/
theorem rekey_behavior_witness :
    ("pending_555" : String) ≠ "CA6" ∧ regC6 "pending_555" = some ctxOld ∧
      rekey "pending_555" "CA6" regC6 =
        Except.ok (regSet (regErase regC6 "pending_555") "CA6" ctxOld) :=
  ⟨by decide, by decide,
    (rekey_behavior "pending_555" "CA6" regC6 ctxOld (by decide) (by decide)).1⟩

/-- A finished session with one full exchange; used for the C7 items. -/
def ctxC7 : Context :=
  { jd := "jd7", resume := "cv7",
    conversation := some [Message.mk "user" "hi", Message.mk "assistant" "q"],
    evaluation := none }

/-- A registry holding only `ctxC7` under call sid CA7. -/
def regC7 : Registry := fun k => if k = "CA7" then some ctxC7 else none

/-- Claim C7: finalization is idempotent.  A first completed status
callback on a present session writes a log and removes the session; a
second completed callback for the same call sid then changes nothing,
writes no further log — so exactly one log write happens in total — and
still returns the ok response. -/
theorem status_callback_finalize_idempotent (ts1 ts2 call_sid : String)
    (parse parse2 : String → Option Evaluation)
    (ev ev2 : Except String String) (r : Registry)
    (h : (r call_sid).isSome = true) :
    ((twilio_status_callback ts1 call_sid "completed" parse ev r).2.1).isSome =
        true ∧
      (twilio_status_callback ts1 call_sid "completed" parse ev r).1 call_sid =
        none ∧
      twilio_status_callback ts2 call_sid "completed" parse2 ev2
          (twilio_status_callback ts1 call_sid "completed" parse ev r).1 =
        ((twilio_status_callback ts1 call_sid "completed" parse ev r).1,
          none, "ok") := by
  obtain ⟨ctx, hc⟩ := Option.isSome_iff_exists.mp h
  have h1 : (twilio_status_callback ts1 call_sid "completed" parse ev r).1 =
      regErase r call_sid := by
    simp [twilio_status_callback, hc]
  refine ⟨by simp [twilio_status_callback, hc], ?_, ?_⟩
  · rw [h1]; simp [regErase]
  · rw [h1]
    simp [twilio_status_callback, regErase]

/-- Witness for C7 at a concrete registry, timestamps and clients. -/
theorem status_callback_finalize_idempotent_witness :
    (regC7 "CA7").isSome = true ∧
      twilio_status_callback "t2" "CA7" "completed" (fun _ => none)
          (Except.error "e2")
          (twilio_status_callback "t1" "CA7" "completed" (fun _ => none)
            (Except.error "e1") regC7).1 =
        ((twilio_status_callback "t1" "CA7" "completed" (fun _ => none)
            (Except.error "e1") regC7).1, none, "ok") :=
  ⟨rfl,
    (status_callback_finalize_idempotent "t1" "t2" "CA7" (fun _ => none)
      (fun _ => none) (Except.error "e1") (Except.error "e2") regC7 rfl).2.2⟩

/-- A session with one full exchange; used for the C8 witness. -/
def ctxC8 : Context :=
  { jd := "jd8", resume := "cv8",
    conversation := some [Message.mk "user" "hi", Message.mk "assistant" "q"],
    evaluation := none }

/-- A registry holding only `ctxC8` under call sid CA8. -/
def regC8 : Registry := fun k => if k = "CA8" then some ctxC8 else none

/-- Claim C8: on a terminal completed status for a present session, the
evaluation engine result is attached to the persisted log record exactly
when the transcript holds at least one full exchange (length at least 2);
a session with a shorter transcript is finalized with evaluation null in
the record. -/
theorem evaluation_invocation_rule (ts call_sid : String)
    (parse : String → Option Evaluation) (evalClient : Except String String)
    (r : Registry) (ctx : Context)
    (hc : r call_sid = some ctx) (hev : ctx.evaluation = none) :
    ∃ lg, (twilio_status_callback ts call_sid "completed" parse evalClient r).2.1 =
        some lg ∧
      lg.conversation = ctx.conversation.getD [] ∧
      lg.evaluation = (if 2 ≤ (ctx.conversation.getD []).length then
        some (evaluate_interview parse evalClient) else none) := by
  by_cases h2 : 2 ≤ (ctx.conversation.getD []).length
  · refine ⟨save_conversation_log call_sid ts
        { ctx with evaluation := some (evaluate_interview parse evalClient) }
        "completed", ?_, ?_, ?_⟩
    · simp [twilio_status_callback, hc, h2]
    · simp [save_conversation_log]
    · simp [save_conversation_log, h2]
  · refine ⟨save_conversation_log call_sid ts ctx "completed", ?_, ?_, ?_⟩
    · simp [twilio_status_callback, hc, h2]
    · simp [save_conversation_log]
    · simp [save_conversation_log, h2, hev]

/-- Witness for C8 at a concrete session with one full exchange. -/
theorem evaluation_invocation_rule_witness :
    regC8 "CA8" = some ctxC8 ∧ ctxC8.evaluation = none ∧
      (∃ lg, (twilio_status_callback "t" "CA8" "completed" (fun _ => none)
            (Except.error "down") regC8).2.1 = some lg ∧
        lg.conversation = ctxC8.conversation.getD [] ∧
        lg.evaluation = (if 2 ≤ (ctxC8.conversation.getD []).length then
          some (evaluate_interview (fun _ => none) (Except.error "down"))
          else none)) :=
  ⟨rfl, rfl,
    evaluation_invocation_rule "t" "CA8" (fun _ => none) (Except.error "down")
      regC8 ctxC8 rfl rfl⟩
